import Mathlib

/-!
Verification development for the MetaVision FP live client
(`MTFPL_client_gui.py`): a shallow embedding of the telemetry sender loop
(`RealSenseThread.run`), the result receiver (`ResultReceiver.run`), the
session state machine and result consumer of `ClientApp`, the projection
helper `project`, and the session-log text export (`save_log_file`),
together with theorems settling the specified properties.

Image payloads are abstracted to `Nat` tokens: the JPEG encoder (`cv2`)
and the byte compressor (`zlib`) are external leaf components whose output
content no property here depends on, so they are embedded as the identity
on payload tokens.
-/

set_option maxRecDepth 100000

namespace MTFPL

/-- One aligned sensor frame as delivered by the frame source: the color
and depth planes may individually be absent (the loop checks
`if not color_frame or not depth_frame: continue`). -/
structure Frame where
  color : Option Nat
  depth : Option Nat
  deriving DecidableEq, Repr

/-- Outbound wire payload built per frame while tracking is active
(`{"rgb_compressed": ..., "depth_compressed": ...}`). -/
structure TelemetryPacket where
  rgb_compressed : Nat
  depth_compressed : Nat
  deriving DecidableEq, Repr

/-- External JPEG encoder, abstracted to the identity on payload tokens. -/
def encodeJpeg (c : Nat) : Nat := c

/-- External zlib compressor, abstracted to the identity on payload tokens. -/
def zlibCompress (d : Nat) : Nat := d

/-- Packet construction from the two encoded planes. -/
def mkPacket (c d : Nat) : TelemetryPacket :=
  { rgb_compressed := encodeJpeg c, depth_compressed := zlibCompress d }

/-- Conversion of the color plane for the local preview
(`cvtColor` + `QImage`), abstracted to the identity on payload tokens. -/
def renderImage (c : Nat) : Nat := c

/-- State threaded through the sender loop: the depth-1 outbound channel
(`SNDHWM = 1`), the log of packets the channel accepted, and the images
emitted to the local renderer via `change_pixmap_signal`. -/
structure SenderState where
  queue : List TelemetryPacket
  sent : List TelemetryPacket
  rendered : List Nat
  deriving DecidableEq, Repr

/-- Error raised by a non-blocking zmq send on a full channel. -/
inductive ZmqErr where
  | again
  deriving DecidableEq, Repr

/-- Non-blocking send (`send_pyobj(..., flags=zmq.NOBLOCK)`) into the
depth-1 channel: accept the packet when the queue is below capacity,
otherwise refuse immediately with `again`. -/
def trySendNoBlock (st : SenderState) (p : TelemetryPacket) :
    Except ZmqErr SenderState :=
  if st.queue.length < 1 then
    Except.ok { st with queue := st.queue ++ [p], sent := st.sent ++ [p] }
  else
    Except.error ZmqErr.again

/-- One iteration of `RealSenseThread.run`: skip incomplete frames; when
`tracking_active`, encode and attempt a non-blocking send, catching
`zmq.Again` (`except zmq.Again: pass`); always forward the color plane to
the local renderer. -/
def senderIter (tracking : Bool) (f : Frame) (st : SenderState) : SenderState :=
  match f.color, f.depth with
  | some c, some d =>
    let st1 :=
      if tracking then
        match trySendNoBlock st (mkPacket c d) with
        | Except.ok st' => st'
        | Except.error ZmqErr.again => st
      else st
    { st1 with rendered := st1.rendered ++ [renderImage c] }
  | _, _ => st

/-- The sender loop over a sequence of (tracking flag, frame) iterations. -/
def senderRun (steps : List (Bool × Frame)) (st : SenderState) : SenderState :=
  steps.foldl (fun st p => senderIter p.1 p.2 st) st

/-- Renderer output of a single frame: `some` for complete frames,
`none` for frames the loop skips. -/
def frameRender (f : Frame) : Option Nat :=
  match f.color, f.depth with
  | some c, some _ => some (renderImage c)
  | _, _ => none

/-- Inbound result payload as a dictionary whose relevant keys may each be
absent: `box_points`, `pose`, and `timestamp` (read with a default of 0). -/
structure ResultPacket where
  box_points : Option (List (Int × Int))
  pose : Option (List (List ℚ))
  timestamp : Option ℚ
  deriving DecidableEq, Repr

/-- One receive step of `ResultReceiver.run` on a decoded packet: publish
`(points, pose, timestamp)` when both `box_points` and `pose` keys are
present, otherwise publish nothing. -/
def receiverStep (p : ResultPacket) :
    Option (List (Int × Int) × List (List ℚ) × ℚ) :=
  if h : p.box_points.isSome ∧ p.pose.isSome then
    some (p.box_points.get h.1, p.pose.get h.2, p.timestamp.getD 0)
  else
    none

/-- One event observed by the receiver loop: a receive timeout
(`zmq.Again`), some other receive exception, or a decoded packet. -/
inductive RecvEvent where
  | timeout
  | failure
  | pkt (p : ResultPacket)

/-- The receiver loop over a sequence of events: timeouts `continue`,
other exceptions `pass`, and packets go through `receiverStep`; the
published results are collected in order. -/
def receiverRun (evs : List RecvEvent) :
    List (List (Int × Int) × List (List ℚ) × ℚ) :=
  evs.filterMap fun e =>
    match e with
    | RecvEvent.timeout => none
    | RecvEvent.failure => none
    | RecvEvent.pkt p => receiverStep p

/-- One session-log record appended per result while tracking
(`{"id": ..., "ts": ..., "pose": ...}`). -/
structure LogEntry where
  id : Nat
  ts : ℚ
  pose : List (List ℚ)
  deriving DecidableEq, Repr

/-- Client-side session state of `ClientApp`: readiness flags, tracking
flag (held on the sender thread object), drawing mode and mask points,
the latest box/pose, the session log with its counter, and the
rate-window buffer with the displayed rate. -/
structure ClientState where
  status_cad : Bool
  status_appearance : Bool
  status_mask : Bool
  tracking_active : Bool
  drawing_mode : Bool
  mask_points : List (Int × Int)
  current_box_points : Option (List (Int × Int))
  current_pose : Option (List (List ℚ))
  pose_log : List LogEntry
  image_counter : Nat
  fps_buffer : List ℚ
  tracking_fps : Nat
  deriving DecidableEq, Repr

/-- Initial state: idle, nothing ready, everything empty. -/
def initState : ClientState :=
  { status_cad := false, status_appearance := false, status_mask := false,
    tracking_active := false, drawing_mode := false, mask_points := [],
    current_box_points := none, current_pose := none, pose_log := [],
    image_counter := 0, fps_buffer := [], tracking_fps := 0 }

/-- Commands issued on the synchronous control channel by the operations
modelled here. -/
inductive ControlCmd where
  | STOP
  | SET_MASK (points : List (Int × Int))
  deriving DecidableEq, Repr

/-- Eviction loop of the rate window
(`while buffer and buffer[0] < now - 1.0: popleft()`). -/
def evictOld (now : ℚ) : List ℚ → List ℚ
  | [] => []
  | t :: ts => if t < now - 1 then evictOld now ts else t :: ts

/-- Rate-window update on one arrival: append the arrival time, then evict
entries strictly older than one second before `now` from the front. -/
def rateUpdate (buf : List ℚ) (now : ℚ) : List ℚ :=
  evictOld now (buf ++ [now])

/-- Handler `ClientApp.update_box_points` for a published result: replace
the latest box and pose unconditionally, update the rate window and the
displayed rate, and append a log entry when tracking is active. -/
def update_box_points (s : ClientState) (pts : List (Int × Int))
    (pose : List (List ℚ)) (ts now : ℚ) : ClientState :=
  let s := { s with current_box_points := some pts, current_pose := some pose }
  let buf := rateUpdate s.fps_buffer now
  let s := { s with fps_buffer := buf, tracking_fps := buf.length }
  if s.tracking_active then
    { s with image_counter := s.image_counter + 1,
             pose_log := s.pose_log ++ [⟨s.image_counter + 1, ts, pose⟩] }
  else s

/-- Handler `ClientApp.toggle_tracking`: clear the latest box/pose, then
either start (reset log, counter, rate window; set `tracking_active`) or
stop (clear `tracking_active`, reset the displayed rate and the mask
state, and attempt a best-effort STOP exchange whose outcome `stopOk` is
swallowed by `except: pass`). Returns the new state and the control
commands attempted. -/
def toggle_tracking (s : ClientState) (stopOk : Bool) :
    ClientState × List ControlCmd :=
  let s := { s with current_box_points := none, current_pose := none }
  if s.tracking_active = false then
    ({ s with pose_log := [], image_counter := 0, fps_buffer := [],
              tracking_fps := 0, tracking_active := true }, [])
  else
    ({ s with tracking_active := false, tracking_fps := 0,
              status_mask := false, mask_points := [] }, [ControlCmd.STOP])

/-- Error rejected synchronously at the point of a user action. -/
inductive ClientErr where
  | UserInputInvalid
  deriving DecidableEq, Repr

/-- Guarded start action: `check_ready_status` enables the start control
only when all three readiness flags hold, so pressing start from idle is
the ready-gated start branch of `toggle_tracking`; otherwise the action is
rejected before any network activity. -/
def start_tracking (s : ClientState) :
    Except ClientErr (ClientState × List ControlCmd) :=
  if s.status_cad && s.status_appearance && s.status_mask then
    Except.ok (toggle_tracking s true)
  else
    Except.error ClientErr.UserInputInvalid

/-- Handler `ClientApp.start_drawing_mode`: while tracking, first run the
stop branch of `toggle_tracking`; then clear the latest box, enter drawing
mode, and reset the mask points and readiness. -/
def start_drawing_mode (s : ClientState) (stopOk : Bool) : ClientState :=
  let s := if s.tracking_active then (toggle_tracking s stopOk).1 else s
  { s with current_box_points := none, drawing_mode := true,
           mask_points := [], status_mask := false }

/-- Handler `ClientApp.handle_image_click`: ignore clicks outside drawing
mode; otherwise append the point, and on the second point leave drawing
mode and run the SET_MASK exchange, whose success `ok` sets
`status_mask` (a failure is swallowed by `except: pass`). -/
def handle_image_click (s : ClientState) (x y : Int) (ok : Bool) :
    ClientState :=
  if s.drawing_mode = false then s
  else
    let pts := s.mask_points ++ [(x, y)]
    if pts.length = 1 then { s with mask_points := pts }
    else if pts.length = 2 then
      let s1 := { s with mask_points := pts, drawing_mode := false }
      if ok then { s1 with status_mask := true } else s1
    else { s with mask_points := pts }

/-- Idle state with CAD and appearance ready but no mask. -/
def readyNoMask : ClientState :=
  { initState with status_cad := true, status_appearance := true }

/-- Idle state with all three readiness flags set. -/
def readyAll : ClientState :=
  { readyNoMask with status_mask := true }

/-- A state in the middle of a tracking run with a mask defined. -/
def trackingState : ClientState :=
  { readyAll with tracking_active := true, mask_points := [(1, 2)] }

/-- User- or receiver-triggered operations that touch the session state:
an image click (with the SET_MASK exchange outcome), entering drawing
mode, the start/stop toggle (with the STOP exchange outcome), and a
published result arriving. -/
inductive ClientOp where
  | click (x y : Int) (ok : Bool)
  | draw (stopOk : Bool)
  | toggle (stopOk : Bool)
  | result (pts : List (Int × Int)) (pose : List (List ℚ)) (ts now : ℚ)

/-- Apply one operation to the session state. -/
def applyOp (s : ClientState) : ClientOp → ClientState
  | ClientOp.click x y ok => handle_image_click s x y ok
  | ClientOp.draw stopOk => start_drawing_mode s stopOk
  | ClientOp.toggle stopOk => (toggle_tracking s stopOk).1
  | ClientOp.result pts pose ts now => update_box_points s pts pose ts now

/-- Run a sequence of operations from the initial state. -/
def runOps (ops : List ClientOp) : ClientState :=
  ops.foldl applyOp initState

/-- Strengthened mask invariant: at most two points, and at most one
while drawing mode is on. -/
def MaskInv (s : ClientState) : Prop :=
  s.mask_points.length ≤ 2 ∧
    (s.drawing_mode = true → s.mask_points.length ≤ 1)

/-- A reachable state holding a stale pose while idle: a result arriving
after tracking stopped still stores its pose. -/
def stalePoseState : ClientState :=
  update_box_points initState [] [[1]] 0 0

/-- A 3-D point. -/
structure Vec3 where
  x : ℚ
  y : ℚ
  z : ℚ
  deriving DecidableEq, Repr

/-- A 3x3 intrinsic matrix. -/
structure Mat3 where
  a00 : ℚ
  a01 : ℚ
  a02 : ℚ
  a10 : ℚ
  a11 : ℚ
  a12 : ℚ
  a20 : ℚ
  a21 : ℚ
  a22 : ℚ
  deriving DecidableEq, Repr

/-- A 4x4 pose matrix. -/
structure Mat4 where
  m00 : ℚ
  m01 : ℚ
  m02 : ℚ
  m03 : ℚ
  m10 : ℚ
  m11 : ℚ
  m12 : ℚ
  m13 : ℚ
  m20 : ℚ
  m21 : ℚ
  m22 : ℚ
  m23 : ℚ
  m30 : ℚ
  m31 : ℚ
  m32 : ℚ
  m33 : ℚ
  deriving DecidableEq, Repr

/-- Camera-frame transform `R @ p_3d + t` with `R = pose[:3,:3]` and
`t = pose[:3,3]`. -/
def camPoint (P : Mat4) (p : Vec3) : Vec3 :=
  ⟨P.m00 * p.x + P.m01 * p.y + P.m02 * p.z + P.m03,
   P.m10 * p.x + P.m11 * p.y + P.m12 * p.z + P.m13,
   P.m20 * p.x + P.m21 * p.y + P.m22 * p.z + P.m23⟩

/-- Application of the intrinsic matrix, `K @ p_cam`. -/
def applyK (K : Mat3) (v : Vec3) : Vec3 :=
  ⟨K.a00 * v.x + K.a01 * v.y + K.a02 * v.z,
   K.a10 * v.x + K.a11 * v.y + K.a12 * v.z,
   K.a20 * v.x + K.a21 * v.y + K.a22 * v.z⟩

/-- Truncation toward zero, Python `int()` on the quotient. -/
def truncQ (q : ℚ) : ℤ := q.num.tdiv q.den

/-- Inner helper `project` of `ClientApp.update_image`: `none` for a
missing pose or a camera-frame depth at most the 0.001 epsilon, otherwise
the perspective-divided pixel coordinates truncated to integers. -/
def project (p : Vec3) (pose : Option Mat4) (K : Mat3) : Option (ℤ × ℤ) :=
  match pose with
  | none => none
  | some P =>
    let p_cam := camPoint P p
    if p_cam.z ≤ 1 / 1000 then none
    else
      let p_img := applyK K p_cam
      some (truncQ (p_img.x / p_img.z), truncQ (p_img.y / p_img.z))

/-- The identity 4x4 pose. -/
def idMat4 : Mat4 := ⟨1, 0, 0, 0, 0, 1, 0, 0, 0, 0, 1, 0, 0, 0, 0, 1⟩

/-- The identity intrinsics, fx=fy=1 and ppx=ppy=0. -/
def idK : Mat3 := ⟨1, 0, 0, 0, 1, 0, 0, 0, 1⟩

/-- Python `str.strip()`: remove leading and trailing whitespace,
implemented structurally on the character list. -/
def pyStrip (s : String) : String :=
  String.mk (((s.data.dropWhile Char.isWhitespace).reverse.dropWhile
    Char.isWhitespace).reverse)

/-- Left-pad a digit string with zeros to width `p`. -/
def padZeros (s : String) (p : Nat) : String :=
  String.mk (List.replicate (p - s.length) '0') ++ s

/-- Python fixed-point formatting of a rational with `p` fractional
digits (format spec `.pf`), with the optional space flag for a leading
space on non-negative values (format spec ` .pf`); the value is scaled by
`10 ^ p` and rounded half to even. -/
def pyFixed (q : ℚ) (p : Nat) (spaceFlag : Bool) : String :=
  let sign := if q < 0 then "-" else if spaceFlag then " " else ""
  let a := q.num.natAbs * 10 ^ p
  let b := q.den
  let w := a / b
  let r := a % b
  let n := if 2 * r < b then w
           else if b < 2 * r then w + 1
           else if w % 2 = 0 then w else w + 1
  if p = 0 then sign ++ toString n
  else sign ++ toString (n / 10 ^ p) ++ "." ++ padZeros (toString (n % 10 ^ p)) p

/-- One pose row of the text export: each entry printed as a bracketed
signed fixed-point number with 15 fractional digits and a trailing space,
the row then stripped and newline-terminated. -/
def rowText (row : List ℚ) : String :=
  pyStrip (String.join (row.map (fun x => "[" ++ pyFixed x 15 true ++ "] ")))
    ++ "\n"

/-- One log entry of the text export written by `save_log_file`. -/
def entryText (e : LogEntry) : String :=
  "Image: " ++ toString e.id ++ "\n" ++
  "Timestamp: " ++ pyFixed e.ts 6 false ++ "\n" ++
  String.join (e.pose.map rowText) ++ "\n"

/-- The full text export of a session log. -/
def saveLogText (log : List LogEntry) : String :=
  String.join (log.map entryText)

/-- The rational 0.123456 given in lowest terms (1929/15625), so that its
numerator and denominator are kernel-computable. -/
def tsValue : ℚ := ⟨1929, 15625, by norm_num, by norm_num⟩

/-- The identity 4x4 matrix as the row list fed to the log writer. -/
def identity4 : List (List ℚ) :=
  [[1, 0, 0, 0], [0, 1, 0, 0], [0, 0, 1, 0], [0, 0, 0, 1]]

/-- The session log of the export example: one entry with id 1,
timestamp 0.123456 and the identity pose. -/
def sampleLog : List LogEntry := [⟨1, tsValue, identity4⟩]

/-- Split a character list at newlines. -/
def splitLines : List Char → List (List Char)
  | [] => [[]]
  | c :: cs =>
    match splitLines cs with
    | [] => [[]]
    | l :: ls => if c = '\n' then [] :: l :: ls else (c :: l) :: ls

/-- The lines of a string. -/
def linesOf (s : String) : List String := (splitLines s.data).map String.mk

/-- Boolean test that `line` begins with `pre`. -/
def lineStarts (line pre : String) : Bool := pre.data.isPrefixOf line.data

theorem senderIter_not_tracking (f : Frame) (st : SenderState) :
    senderIter false f st =
      { st with rendered := st.rendered ++ (frameRender f).toList } := by
  cases f with
  | mk color depth =>
    cases color <;> cases depth <;> simp [senderIter, frameRender]

/-- C1: over any sequence of frames captured while `tracking_active=false`,
the outbound channel is untouched (no packet is accepted and the queue is
unchanged, hence zero TelemetryPackets are transmitted), while every
complete captured frame is still forwarded to the local renderer. -/
theorem sender_inactive_sends_nothing (frames : List Frame) (st : SenderState) :
    (senderRun (frames.map (fun f => (false, f))) st).queue = st.queue ∧
    (senderRun (frames.map (fun f => (false, f))) st).sent = st.sent ∧
    (senderRun (frames.map (fun f => (false, f))) st).rendered =
      st.rendered ++ frames.filterMap frameRender := by
  induction frames generalizing st with
  | nil => simp [senderRun]
  | cons f fs ih =>
    have hstep : senderRun ((f :: fs).map (fun f => (false, f))) st =
        senderRun (fs.map (fun f => (false, f))) (senderIter false f st) := by
      simp [senderRun]
    rw [hstep, senderIter_not_tracking]
    rcases ih { st with rendered := st.rendered ++ (frameRender f).toList }
      with ⟨hq, hs, hr⟩
    refine ⟨hq, hs, ?_⟩
    rw [hr]
    cases h : frameRender f <;> simp [h, List.filterMap_cons]

/-- C2: when the depth-1 outbound channel is at capacity, the non-blocking
send refuses immediately with `again`, the iteration catches it and drops
the packet (queue and accepted-packet log unchanged, no retry), and the
loop continues with the next frame after forwarding the current one to the
renderer. -/
theorem sender_full_queue_drops (st : SenderState) (f : Frame) (c d : Nat)
    (hc : f.color = some c) (hd : f.depth = some d)
    (hfull : st.queue.length = 1) :
    trySendNoBlock st (mkPacket c d) = Except.error ZmqErr.again ∧
    senderIter true f st = { st with rendered := st.rendered ++ [renderImage c] } ∧
    (∀ rest, senderRun ((true, f) :: rest) st =
      senderRun rest { st with rendered := st.rendered ++ [renderImage c] }) := by
  have hsend : trySendNoBlock st (mkPacket c d) = Except.error ZmqErr.again := by
    simp [trySendNoBlock, hfull]
  have hiter : senderIter true f st =
      { st with rendered := st.rendered ++ [renderImage c] } := by
    cases f with
    | mk color depth =>
      cases hc; cases hd
      simp [senderIter, hsend]
  refine ⟨hsend, hiter, fun rest => ?_⟩
  simp [senderRun, hiter]

/-- Witness for C2 at a concrete full-channel state and frame. -/
theorem sender_full_queue_drops_witness :
    trySendNoBlock ⟨[mkPacket 5 6], [mkPacket 5 6], []⟩ (mkPacket 7 8) =
      Except.error ZmqErr.again ∧
    senderIter true ⟨some 7, some 8⟩ ⟨[mkPacket 5 6], [mkPacket 5 6], []⟩ =
      ⟨[mkPacket 5 6], [mkPacket 5 6], [renderImage 7]⟩ ∧
    (∀ rest, senderRun ((true, ⟨some 7, some 8⟩) :: rest)
        ⟨[mkPacket 5 6], [mkPacket 5 6], []⟩ =
      senderRun rest ⟨[mkPacket 5 6], [mkPacket 5 6], [renderImage 7]⟩) := by
  have h := sender_full_queue_drops ⟨[mkPacket 5 6], [mkPacket 5 6], []⟩
    ⟨some 7, some 8⟩ 7 8 rfl rfl (by decide)
  exact ⟨h.1, h.2.1, h.2.2⟩

/-- C6: a packet is published if and only if it carries both `box_points`
and `pose`; a valid packet publishes exactly
`(points, pose, timestamp or 0)`; a packet lacking either field is
discarded with nothing surfaced, and the loop continues with the
remaining events either way. -/
theorem receiver_publishes_iff_valid (p : ResultPacket) :
    ((receiverStep p).isSome ↔ p.box_points.isSome ∧ p.pose.isSome) ∧
    (∀ pts pose, p.box_points = some pts → p.pose = some pose →
      receiverStep p = some (pts, pose, p.timestamp.getD 0)) ∧
    ((p.box_points = none ∨ p.pose = none) → receiverStep p = none) ∧
    (∀ evs, receiverRun (RecvEvent.pkt p :: evs) =
      (receiverStep p).toList ++ receiverRun evs) := by
  refine ⟨?_, ?_, ?_, ?_⟩
  · constructor
    · intro h
      by_contra hn
      rw [receiverStep, dif_neg hn] at h
      simp at h
    · intro h
      rw [receiverStep, dif_pos h]
      rfl
  · intro pts pose hb hp
    have h : p.box_points.isSome ∧ p.pose.isSome := by
      rw [hb, hp]; exact ⟨rfl, rfl⟩
    rw [receiverStep, dif_pos h]
    simp [Option.get_of_mem, hb, hp]
  · intro h
    have hn : ¬ (p.box_points.isSome ∧ p.pose.isSome) := by
      rcases h with h | h <;> simp [h]
    rw [receiverStep, dif_neg hn]
  · intro evs
    cases h : receiverStep p <;>
      simp [receiverRun, List.filterMap_cons, h]

/-- Witness for C6 at a packet lacking `pose` and a packet with both
fields. -/
theorem receiver_publishes_iff_valid_witness :
    receiverStep ⟨some [(1, 2)], none, some 5⟩ = none ∧
    receiverStep ⟨some [(1, 2)], some [[1]], none⟩ =
      some ([(1, 2)], [[1]], 0) ∧
    receiverRun [RecvEvent.pkt ⟨some [(1, 2)], none, some 5⟩,
      RecvEvent.timeout, RecvEvent.pkt ⟨some [(1, 2)], some [[1]], some 3⟩] =
      [([(1, 2)], [[1]], 3)] := by
  have h1 := receiver_publishes_iff_valid ⟨some [(1, 2)], none, some 5⟩
  have h2 := receiver_publishes_iff_valid ⟨some [(1, 2)], some [[1]], none⟩
  refine ⟨h1.2.2.1 (Or.inr rfl), ?_, ?_⟩
  · have := h2.2.1 [(1, 2)] [[1]] rfl rfl
    simpa using this
  · decide

theorem evictOld_eq_filter (now : ℚ) (l : List ℚ)
    (h : l.Pairwise (· ≤ ·)) :
    evictOld now l = l.filter (fun t => now - 1 ≤ t) := by
  induction l with
  | nil => simp [evictOld]
  | cons t ts ih =>
    rw [List.pairwise_cons] at h
    by_cases ht : t < now - 1
    · have hnot : ¬ (now - 1 ≤ t) := not_le.mpr ht
      simp only [evictOld, if_pos ht, List.filter_cons, decide_eq_false hnot]
      rw [ih h.2]
      simp
    · have hkeep : now - 1 ≤ t := not_lt.mp ht
      have hall : ∀ x ∈ ts, decide (now - 1 ≤ x) = true := by
        intro x hx
        exact decide_eq_true (le_trans hkeep (h.1 x hx))
      simp only [evictOld, if_neg ht, List.filter_cons, decide_eq_true hkeep,
        if_true]
      rw [List.filter_eq_self.mpr hall]

/-- C5: on a result arrival at time `now` with monotone earlier arrivals,
the rate window retains exactly the arrival timestamps at least
`now - 1.0` (strictly older entries are evicted), the displayed rate is
the window size after eviction, and in particular arrivals at
t = 0.0, 0.3, 0.9, 1.2 evaluated at t = 1.2 leave a window of size 3. -/
theorem rate_window_one_second (s : ClientState) (pts : List (Int × Int))
    (pose : List (List ℚ)) (ts now : ℚ)
    (hsort : s.fps_buffer.Pairwise (· ≤ ·))
    (hle : ∀ t ∈ s.fps_buffer, t ≤ now) :
    (update_box_points s pts pose ts now).fps_buffer =
      (s.fps_buffer ++ [now]).filter (fun t => now - 1 ≤ t) ∧
    (update_box_points s pts pose ts now).tracking_fps =
      (update_box_points s pts pose ts now).fps_buffer.length ∧
    (List.foldl rateUpdate []
      [(0 : ℚ), 3 / 10, 9 / 10, 6 / 5]).length = 3 := by
  have hproj : (update_box_points s pts pose ts now).fps_buffer =
      rateUpdate s.fps_buffer now ∧
      (update_box_points s pts pose ts now).tracking_fps =
        (rateUpdate s.fps_buffer now).length := by
    by_cases h : s.tracking_active <;> simp [update_box_points, h]
  have hpw : (s.fps_buffer ++ [now]).Pairwise (· ≤ ·) := by
    rw [List.pairwise_append]
    refine ⟨hsort, List.pairwise_singleton _ _, ?_⟩
    intro x hx y hy
    rw [List.mem_singleton] at hy
    exact hy ▸ hle x hx
  refine ⟨?_, ?_, ?_⟩
  · rw [hproj.1, rateUpdate, evictOld_eq_filter now _ hpw]
  · rw [hproj.1, hproj.2]
  · norm_num [List.foldl, rateUpdate, evictOld]

/-- Witness for C5 at a concrete sorted buffer. -/
theorem rate_window_one_second_witness :
    (update_box_points initState [] [] 0 (6 / 5)).fps_buffer = [6 / 5] ∧
    (List.foldl rateUpdate []
      [(0 : ℚ), 3 / 10, 9 / 10, 6 / 5]).length = 3 := by
  have h := rate_window_one_second initState [] [] 0 (6 / 5)
    (by simp [initState]) (by simp [initState])
  refine ⟨?_, h.2.2⟩
  rw [h.1]
  norm_num [initState, List.filter]

/-- C3: from idle with CAD and appearance ready, pressing start with
`mask_ready=false` is rejected with `UserInputInvalid` before any control
command is issued, while with `mask_ready=true` it transitions to
tracking, clearing the session log, the image counter and the rate
window. -/
theorem start_tracking_gated (s : ClientState)
    (hc : s.status_cad = true) (ha : s.status_appearance = true)
    (ht : s.tracking_active = false) :
    (s.status_mask = false →
      start_tracking s = Except.error ClientErr.UserInputInvalid) ∧
    (s.status_mask = true →
      start_tracking s = Except.ok
        ({ s with current_box_points := none, current_pose := none,
                  pose_log := [], image_counter := 0, fps_buffer := [],
                  tracking_fps := 0, tracking_active := true }, [])) := by
  constructor
  · intro hm
    simp [start_tracking, hc, ha, hm]
  · intro hm
    simp [start_tracking, hc, ha, hm, toggle_tracking, ht]

/-- Witness for C3 at concrete ready and not-ready states. -/
theorem start_tracking_gated_witness :
    start_tracking readyNoMask = Except.error ClientErr.UserInputInvalid ∧
    start_tracking readyAll =
      Except.ok ({ readyAll with tracking_active := true }, []) := by
  constructor
  · exact (start_tracking_gated readyNoMask rfl rfl rfl).1 rfl
  · have h := (start_tracking_gated readyAll rfl rfl rfl).2 rfl
    rw [h]
    rfl

/-- C4: stopping from the tracking state clears the tracking flag, the
latest box and pose, the mask readiness and the mask points, attempts
exactly a best-effort STOP exchange, and the resulting local state does
not depend on whether that exchange succeeds. -/
theorem stop_tracking_resets (s : ClientState) (stopOk : Bool)
    (h : s.tracking_active = true) :
    (toggle_tracking s stopOk).1.tracking_active = false ∧
    (toggle_tracking s stopOk).1.current_box_points = none ∧
    (toggle_tracking s stopOk).1.current_pose = none ∧
    (toggle_tracking s stopOk).1.status_mask = false ∧
    (toggle_tracking s stopOk).1.mask_points = [] ∧
    (toggle_tracking s stopOk).2 = [ControlCmd.STOP] ∧
    toggle_tracking s true = toggle_tracking s false := by
  simp [toggle_tracking, h]

/-- Witness for C4 at a concrete tracking state. -/
theorem stop_tracking_resets_witness :
    (toggle_tracking trackingState false).1.tracking_active = false ∧
    (toggle_tracking trackingState false).2 = [ControlCmd.STOP] := by
  have h := stop_tracking_resets trackingState false rfl
  exact ⟨h.1, h.2.2.2.2.2.1⟩

theorem maskInv_applyOp {s : ClientState} (h : MaskInv s) (op : ClientOp) :
    MaskInv (applyOp s op) := by
  rcases h with ⟨h2, h1⟩
  cases op with
  | click x y ok =>
    show MaskInv (handle_image_click s x y ok)
    by_cases hd : s.drawing_mode = false
    · rw [handle_image_click, if_pos hd]
      exact ⟨h2, h1⟩
    · have hd' : s.drawing_mode = true := by
        cases hdm : s.drawing_mode
        · exact absurd hdm hd
        · rfl
      have hlen := h1 hd'
      rw [handle_image_click, if_neg hd]
      rcases hmp : s.mask_points with _ | ⟨a, _ | ⟨b, l⟩⟩
      · simp [MaskInv, hd']
      · cases ok <;> simp [MaskInv]
      · rw [hmp] at hlen
        simp at hlen
  | draw stopOk =>
    simp [applyOp, start_drawing_mode, MaskInv]
  | toggle stopOk =>
    show MaskInv (toggle_tracking s stopOk).1
    by_cases ht : s.tracking_active
    · simp [toggle_tracking, ht, MaskInv]
    · have he : (toggle_tracking s stopOk).1.mask_points = s.mask_points ∧
          (toggle_tracking s stopOk).1.drawing_mode = s.drawing_mode := by
        simp [toggle_tracking, ht]
      refine ⟨?_, ?_⟩
      · rw [he.1]; exact h2
      · rw [he.1, he.2]; exact h1
  | result pts pose ts now =>
    show MaskInv (update_box_points s pts pose ts now)
    have he : (update_box_points s pts pose ts now).mask_points =
          s.mask_points ∧
        (update_box_points s pts pose ts now).drawing_mode =
          s.drawing_mode := by
      by_cases ht : s.tracking_active <;> simp [update_box_points, ht]
    refine ⟨?_, ?_⟩
    · rw [he.1]; exact h2
    · rw [he.1, he.2]; exact h1

theorem maskInv_foldl (ops : List ClientOp) :
    ∀ s : ClientState, MaskInv s → MaskInv (ops.foldl applyOp s) := by
  induction ops with
  | nil => intro s h; exact h
  | cons op ops ih =>
    intro s h
    exact ih (applyOp s op) (maskInv_applyOp h op)

/-- C9: starting from the initial state, no sequence of clicks, drawing
activations, start/stop toggles and result arrivals can make
`mask_points` exceed two entries; moreover drawing mode always implies at
most one point is stored, since the second click leaves drawing mode. -/
theorem mask_points_at_most_two (ops : List ClientOp) :
    (runOps ops).mask_points.length ≤ 2 ∧
    ((runOps ops).drawing_mode = true →
      (runOps ops).mask_points.length ≤ 1) := by
  have h := maskInv_foldl ops initState ⟨by simp [initState], by simp [initState]⟩
  exact h

/-- C10 counterexample: entering drawing mode from an idle state does not
clear the latest pose — `start_drawing_mode` only clears
`current_box_points`, so the stale pose survives. -/
theorem drawing_mode_keeps_stale_pose :
    stalePoseState.tracking_active = false ∧
    (start_drawing_mode stalePoseState true).current_pose = some [[1]] := by
  constructor
  · rfl
  · rfl

/-- C10 amended: the toggle clears both `current_box_points` and
`current_pose` before either transition; entering drawing mode always
clears `current_box_points`, and also clears `current_pose` when tracking
was active (via the forced stop), but leaves `current_pose` untouched
when entered from idle. -/
theorem overlay_cleared_on_toggle_and_box_on_draw (s : ClientState)
    (stopOk : Bool) :
    (toggle_tracking s stopOk).1.current_box_points = none ∧
    (toggle_tracking s stopOk).1.current_pose = none ∧
    (start_drawing_mode s stopOk).current_box_points = none ∧
    (s.tracking_active = true →
      (start_drawing_mode s stopOk).current_pose = none) := by
  refine ⟨?_, ?_, ?_, ?_⟩
  · by_cases ht : s.tracking_active <;> simp [toggle_tracking, ht]
  · by_cases ht : s.tracking_active <;> simp [toggle_tracking, ht]
  · by_cases ht : s.tracking_active <;> simp [start_drawing_mode, ht]
  · intro ht
    simp [start_drawing_mode, ht, toggle_tracking]

/-- Witness for the amended C10 at a concrete tracking state. -/
theorem overlay_cleared_witness :
    (toggle_tracking trackingState true).1.current_pose = none ∧
    (start_drawing_mode trackingState true).current_pose = none := by
  have h := overlay_cleared_on_toggle_and_box_on_draw trackingState true
  exact ⟨h.2.1, h.2.2.2 rfl⟩

/-- C7: `project` returns `none` exactly on the epsilon guard — any point
whose camera-frame depth is at most 0.001 is discarded, any other point
maps through the intrinsics with a perspective divide truncated to
integers — and a point at depth 1 under the identity pose and identity
intrinsics projects to its own x, y truncated. -/
theorem project_epsilon_and_identity (p : Vec3) (P : Mat4) (K : Mat3) :
    ((camPoint P p).z ≤ 1 / 1000 → project p (some P) K = none) ∧
    (1 / 1000 < (camPoint P p).z →
      project p (some P) K =
        some (truncQ ((applyK K (camPoint P p)).x / (applyK K (camPoint P p)).z),
          truncQ ((applyK K (camPoint P p)).y / (applyK K (camPoint P p)).z))) ∧
    (∀ x y : ℚ, project ⟨x, y, 1⟩ (some idMat4) idK =
      some (truncQ x, truncQ y)) := by
  refine ⟨?_, ?_, ?_⟩
  · intro h
    simp only [project, if_pos h]
  · intro h
    simp only [project, if_neg (not_le.mpr h)]
  · intro x y
    have hz : (camPoint idMat4 ⟨x, y, 1⟩).z = 1 := by
      simp [camPoint, idMat4]
    have hx : (applyK idK (camPoint idMat4 ⟨x, y, 1⟩)).x = x := by
      simp [applyK, camPoint, idMat4, idK]
    have hy : (applyK idK (camPoint idMat4 ⟨x, y, 1⟩)).y = y := by
      simp [applyK, camPoint, idMat4, idK]
    have hzK : (applyK idK (camPoint idMat4 ⟨x, y, 1⟩)).z = 1 := by
      simp [applyK, camPoint, idMat4, idK]
    have hguard : ¬ ((camPoint idMat4 ⟨x, y, 1⟩).z ≤ 1 / 1000) := by
      rw [hz]; norm_num
    simp only [project, if_neg hguard, hx, hy, hzK, div_one]

/-- Witness for C7: the origin under the identity pose is at depth 0 and
is discarded; the point (2, -3, 1) projects to (2, -3). -/
theorem project_epsilon_and_identity_witness :
    project ⟨0, 0, 0⟩ (some idMat4) idK = none ∧
    project ⟨2, -3, 1⟩ (some idMat4) idK = some (2, -3) := by
  constructor
  · apply (project_epsilon_and_identity ⟨0, 0, 0⟩ idMat4 idK).1
    norm_num [camPoint, idMat4]
  · have h := (project_epsilon_and_identity ⟨2, -3, 1⟩ idMat4 idK).2.2 2 (-3)
    rw [h]
    have h2 : truncQ 2 = 2 := by decide
    have h3 : truncQ (-3) = -3 := by decide
    rw [h2, h3]

/-- C8 counterexample: in the export of the identity-pose log entry, the
second pose row (line index 3) begins with `[ 0.000000000000000]`, not
with `[ 1.000000000000000]`, so the claim that each of the four pose rows
begins with the latter is false. -/
theorem export_second_row_leads_with_zero :
    (linesOf (saveLogText sampleLog)).getD 3 "" =
      "[ 0.000000000000000] [ 1.000000000000000] [ 0.000000000000000]" ++
        " [ 0.000000000000000]" ∧
    lineStarts ((linesOf (saveLogText sampleLog)).getD 3 "")
      "[ 1.000000000000000]" = false := by
  constructor
  · decide
  · decide

/-- C8 amended: the export of the log `[(1, 0.123456, I4)]` is exactly the
block below — it contains the line `Image: 1`, the line
`Timestamp: 0.123456` and four pose rows with the diagonal entry printed
as `[ 1.000000000000000]` and the other entries as
`[ 0.000000000000000]` in signed fixed-point with 15 fractional digits,
the FIRST row (only) beginning with `[ 1.000000000000000]`, and the entry
is followed by a blank line. -/
theorem export_identity_log_text :
    tsValue = 123456 / 1000000 ∧
    saveLogText sampleLog =
      "Image: 1\n" ++
      "Timestamp: 0.123456\n" ++
      "[ 1.000000000000000] [ 0.000000000000000] [ 0.000000000000000]" ++
        " [ 0.000000000000000]\n" ++
      "[ 0.000000000000000] [ 1.000000000000000] [ 0.000000000000000]" ++
        " [ 0.000000000000000]\n" ++
      "[ 0.000000000000000] [ 0.000000000000000] [ 1.000000000000000]" ++
        " [ 0.000000000000000]\n" ++
      "[ 0.000000000000000] [ 0.000000000000000] [ 0.000000000000000]" ++
        " [ 1.000000000000000]\n" ++
      "\n" ∧
    "Image: 1" ∈ linesOf (saveLogText sampleLog) ∧
    "Timestamp: 0.123456" ∈ linesOf (saveLogText sampleLog) ∧
    lineStarts ((linesOf (saveLogText sampleLog)).getD 2 "")
      "[ 1.000000000000000]" = true := by
  refine ⟨?_, by decide, by decide, by decide, by decide⟩
  rw [tsValue, Rat.mk'_eq_divInt, Rat.divInt_eq_div]
  norm_num

end MTFPL
